import Mathlib

/-!
Shallow embedding of the loanguard requirement-extraction core:
the domain model (`src/models.py`), the response parser and defensive
coercion logic of the extraction client (`src/extractor.py`), the mock
reference extractor, and the compliance score (`src/database.py`).

Python JSON values (the output of `json.loads`) are modelled by `JsonValue`;
JSON numbers are modelled as exact rationals (Python distinguishes int and
float; an int is a rational with denominator 1).  Python `float` arithmetic
in the compliance score is modelled by an IEEE-754 binary64 emulation over
exact rationals (round to nearest, ties to even), `none` standing for a
result escaping the double range.
Dataclass fields follow their declared Python types; a builder input whose
dynamic type would make the Python code raise (or store a value violating
the dataclass's declared field type) is mapped to `none`.
-/

set_option maxHeartbeats 1000000
set_option maxRecDepth 8000

set_option allowUnsafeReducibility true
attribute [semireducible] Rat.add Rat.mul Rat.inv Rat.div Rat.sub Rat.neg
  Rat.normalize

/-- A decoded JSON document, as returned by Python's `json.loads`. -/
inductive JsonValue where
  | null : JsonValue
  | bool : Bool → JsonValue
  | num : Rat → JsonValue
  | str : String → JsonValue
  | arr : List JsonValue → JsonValue
  | obj : List (String × JsonValue) → JsonValue

/-- First-match lookup in an object's field list (Python `dict.get(k)`). -/
def lookupField (fs : List (String × JsonValue)) (k : String) : Option JsonValue :=
  match fs with
  | [] => none
  | (k', v) :: rest => if k' = k then some v else lookupField rest k

/-- Replace the value stored under key `k` (used to state counterfactual
payloads in theorems; keys not equal to `k` are untouched). -/
def setField (fs : List (String × JsonValue)) (k : String) (v : JsonValue) :
    List (String × JsonValue) :=
  match fs with
  | [] => []
  | (k0, v0) :: rest => (if k0 = k then (k0, v) else (k0, v0)) :: setField rest k v

/-- Python truthiness of a JSON value (`bool(x)`). -/
def jsonTruthy : JsonValue → Bool
  | .null => false
  | .bool b => b
  | .num q => decide (q ≠ 0)
  | .str s => decide (s ≠ "")
  | .arr xs => !xs.isEmpty
  | .obj fs => !fs.isEmpty

/-- Python `str.lower()` (ASCII case folding, which covers every string the
source compares against). -/
def pyLower (s : String) : String := String.mk (s.data.map Char.toLower)

/-- Python `.replace(" ", "_")`. -/
def spacesToUnderscores (s : String) : String :=
  String.mk (s.data.map fun c => if c = ' ' then '_' else c)

/-- Python slicing `s[:n]`: the first `n` characters (all of `s` if shorter). -/
def pySliceTo (s : String) (n : Nat) : String := String.mk (s.data.take n)

/-- Python slicing `s[-n:]` for `0 < n ≤ len(s)`: the last `n` characters. -/
def pySliceLast (s : String) (n : Nat) : String :=
  String.mk (s.data.drop (s.data.length - n))

/-- `f"REQ-{index:03d}"`'s zero padding for a natural number. -/
def padNat3 (n : Nat) : String :=
  if n < 10 then "00" ++ toString n
  else if n < 100 then "0" ++ toString n
  else toString n

/-- `RequirementCategory` enum from `src/models.py`. -/
inductive RequirementCategory where
  | FINANCIAL_REPORTING | COVENANT_COMPLIANCE | INSURANCE | RESERVE_FUNDING
  | PROPERTY_MANAGEMENT | LEASING | CAPITAL_IMPROVEMENTS | TAX_ESCROW
  | ENVIRONMENTAL | LEGAL_ENTITY | OTHER
deriving DecidableEq

def RequirementCategory.value : RequirementCategory → String
  | .FINANCIAL_REPORTING => "financial_reporting"
  | .COVENANT_COMPLIANCE => "covenant_compliance"
  | .INSURANCE => "insurance"
  | .RESERVE_FUNDING => "reserve_funding"
  | .PROPERTY_MANAGEMENT => "property_management"
  | .LEASING => "leasing"
  | .CAPITAL_IMPROVEMENTS => "capital_improvements"
  | .TAX_ESCROW => "tax_escrow"
  | .ENVIRONMENTAL => "environmental"
  | .LEGAL_ENTITY => "legal_entity"
  | .OTHER => "other"

/-- Members in Python definition order (`for cat in RequirementCategory`). -/
def RequirementCategory.members : List RequirementCategory :=
  [.FINANCIAL_REPORTING, .COVENANT_COMPLIANCE, .INSURANCE, .RESERVE_FUNDING,
   .PROPERTY_MANAGEMENT, .LEASING, .CAPITAL_IMPROVEMENTS, .TAX_ESCROW,
   .ENVIRONMENTAL, .LEGAL_ENTITY, .OTHER]

/-- Enum lookup by value, `RequirementCategory(s)`; `none` models the
`ValueError` branch. -/
def RequirementCategory.fromValue (s : String) : Option RequirementCategory :=
  RequirementCategory.members.find? fun c => c.value = s

/-- `Frequency` enum from `src/models.py`. -/
inductive Frequency where
  | MONTHLY | QUARTERLY | SEMI_ANNUAL | ANNUAL | ONE_TIME | AS_NEEDED | UPON_REQUEST
deriving DecidableEq

def Frequency.value : Frequency → String
  | .MONTHLY => "monthly"
  | .QUARTERLY => "quarterly"
  | .SEMI_ANNUAL => "semi_annual"
  | .ANNUAL => "annual"
  | .ONE_TIME => "one_time"
  | .AS_NEEDED => "as_needed"
  | .UPON_REQUEST => "upon_request"

def Frequency.members : List Frequency :=
  [.MONTHLY, .QUARTERLY, .SEMI_ANNUAL, .ANNUAL, .ONE_TIME, .AS_NEEDED, .UPON_REQUEST]

def Frequency.fromValue (s : String) : Option Frequency :=
  Frequency.members.find? fun c => c.value = s

/-- `ComplianceStatus` enum from `src/models.py`. -/
inductive ComplianceStatus where
  | COMPLIANT | NON_COMPLIANT | AT_RISK | PENDING | UNKNOWN | NOT_YET_DUE
deriving DecidableEq

def ComplianceStatus.value : ComplianceStatus → String
  | .COMPLIANT => "compliant"
  | .NON_COMPLIANT => "non_compliant"
  | .AT_RISK => "at_risk"
  | .PENDING => "pending"
  | .UNKNOWN => "unknown"
  | .NOT_YET_DUE => "not_yet_due"

def ComplianceStatus.members : List ComplianceStatus :=
  [.COMPLIANT, .NON_COMPLIANT, .AT_RISK, .PENDING, .UNKNOWN, .NOT_YET_DUE]

def ComplianceStatus.fromValue (s : String) : Option ComplianceStatus :=
  ComplianceStatus.members.find? fun c => c.value = s

/-- `Severity` enum from `src/models.py`. -/
inductive Severity where
  | CRITICAL | HIGH | MEDIUM | LOW
deriving DecidableEq

def Severity.value : Severity → String
  | .CRITICAL => "critical"
  | .HIGH => "high"
  | .MEDIUM => "medium"
  | .LOW => "low"

def Severity.members : List Severity := [.CRITICAL, .HIGH, .MEDIUM, .LOW]

def Severity.fromValue (s : String) : Option Severity :=
  Severity.members.find? fun c => c.value = s

/-- `Deadline` dataclass from `src/models.py`. -/
structure Deadline where
  description : String
  days_after_period_end : Option Int := none
  specific_date : Option String := none
  day_of_month : Option Int := none
  frequency : Frequency := .AS_NEEDED
deriving DecidableEq

/-- `Threshold` dataclass from `src/models.py` (floats as exact rationals). -/
structure Threshold where
  metric : String
  operator : String
  value : Rat
  secondary_value : Option Rat := none
  unit : Option String := none
deriving DecidableEq

/-- `LoanRequirement` dataclass from `src/models.py`. -/
structure LoanRequirement where
  id : String
  title : String
  category : RequirementCategory
  description : String
  plain_language_summary : String
  original_text : String
  document_reference : String
  deadline : Option Deadline := none
  threshold : Option Threshold := none
  severity : Severity := .MEDIUM
  cure_period_days : Option Int := none
  status : ComplianceStatus := .UNKNOWN
  last_checked : Option String := none
  notes : String := ""
deriving DecidableEq

/-- `ComplianceEvent` dataclass from `src/models.py`. -/
structure ComplianceEvent where
  requirement_id : String
  event_date : String
  event_type : String
  description : String
  submitted_by : Option String := none
  documents : List String := []
deriving DecidableEq

/-- `LoanProfile` dataclass from `src/models.py`.  The wall-clock default of
`extraction_date` is supplied by the caller that constructs the profile. -/
structure LoanProfile where
  loan_id : String
  loan_name : String
  property_name : String
  borrower_name : String
  lender_name : String
  original_loan_amount : Rat
  current_balance : Option Rat := none
  origination_date : Option String := none
  maturity_date : Option String := none
  requirements : List LoanRequirement := []
  events : List ComplianceEvent := []
  source_documents : List String := []
  extraction_date : String
deriving DecidableEq

/-- Serialization of an optional string (absent fields serialize to null). -/
def optStrJson : Option String → JsonValue
  | none => .null
  | some s => .str s

/-- Serialization of an optional integer field. -/
def optIntJson : Option Int → JsonValue
  | none => .null
  | some i => .num (i : Rat)

/-- Serialization of an optional float field. -/
def optRatJson : Option Rat → JsonValue
  | none => .null
  | some q => .num q

/-- `Deadline.to_dict` from `src/models.py`. -/
def Deadline.toDict (d : Deadline) : JsonValue :=
  .obj [("description", .str d.description),
        ("days_after_period_end", optIntJson d.days_after_period_end),
        ("specific_date", optStrJson d.specific_date),
        ("day_of_month", optIntJson d.day_of_month),
        ("frequency", .str d.frequency.value)]

/-- `Threshold.to_dict` from `src/models.py`. -/
def Threshold.toDict (t : Threshold) : JsonValue :=
  .obj [("metric", .str t.metric),
        ("operator", .str t.operator),
        ("value", .num t.value),
        ("secondary_value", optRatJson t.secondary_value),
        ("unit", optStrJson t.unit)]

/-- `LoanRequirement.to_dict` from `src/models.py`. -/
def LoanRequirement.toDict (r : LoanRequirement) : JsonValue :=
  .obj [("id", .str r.id),
        ("title", .str r.title),
        ("category", .str r.category.value),
        ("description", .str r.description),
        ("plain_language_summary", .str r.plain_language_summary),
        ("original_text", .str r.original_text),
        ("document_reference", .str r.document_reference),
        ("deadline", match r.deadline with | some d => d.toDict | none => .null),
        ("threshold", match r.threshold with | some t => t.toDict | none => .null),
        ("severity", .str r.severity.value),
        ("cure_period_days", optIntJson r.cure_period_days),
        ("status", .str r.status.value),
        ("last_checked", optStrJson r.last_checked),
        ("notes", .str r.notes)]

/-- `ComplianceEvent.to_dict` from `src/models.py`. -/
def ComplianceEvent.toDict (e : ComplianceEvent) : JsonValue :=
  .obj [("requirement_id", .str e.requirement_id),
        ("event_date", .str e.event_date),
        ("event_type", .str e.event_type),
        ("description", .str e.description),
        ("submitted_by", optStrJson e.submitted_by),
        ("documents", .arr (e.documents.map .str))]

/-- `LoanProfile.to_dict` from `src/models.py`. -/
def LoanProfile.toDict (p : LoanProfile) : JsonValue :=
  .obj [("loan_id", .str p.loan_id),
        ("loan_name", .str p.loan_name),
        ("property_name", .str p.property_name),
        ("borrower_name", .str p.borrower_name),
        ("lender_name", .str p.lender_name),
        ("original_loan_amount", .num p.original_loan_amount),
        ("current_balance", optRatJson p.current_balance),
        ("origination_date", optStrJson p.origination_date),
        ("maturity_date", optStrJson p.maturity_date),
        ("requirements", .arr (p.requirements.map LoanRequirement.toDict)),
        ("events", .arr (p.events.map ComplianceEvent.toDict)),
        ("source_documents", .arr (p.source_documents.map .str)),
        ("extraction_date", .str p.extraction_date)]

/-- `LoanProfile.get_requirements_by_category` from `src/models.py`. -/
def LoanProfile.getRequirementsByCategory (p : LoanProfile)
    (category : RequirementCategory) : List LoanRequirement :=
  p.requirements.filter fun r => r.category = category

/-- `LoanProfile.get_upcoming_deadlines` from `src/models.py`.  The source
comments that real date logic is missing and simply filters on the presence
of a deadline; `within_days` (default 30) is never read. -/
def LoanProfile.getUpcomingDeadlines (p : LoanProfile) (within_days : Int) :
    List LoanRequirement :=
  p.requirements.filter fun r => r.deadline.isSome

/-- `LoanProfile.get_non_compliant` from `src/models.py`. -/
def LoanProfile.getNonCompliant (p : LoanProfile) : List LoanRequirement :=
  p.requirements.filter fun r => r.status = ComplianceStatus.NON_COMPLIANT

/-- `LoanProfile.get_at_risk` from `src/models.py`. -/
def LoanProfile.getAtRisk (p : LoanProfile) : List LoanRequirement :=
  p.requirements.filter fun r => r.status = ComplianceStatus.AT_RISK

/-- `dict.get(key, 0)` over an association list of counts. -/
def lookupCount (counts : List (String × Nat)) (key : String) : Option Nat :=
  match counts with
  | [] => none
  | (k, v) :: rest => if k = key then some v else lookupCount rest key

/-- The dictionary returned by `LoanProfile.compliance_summary`, field per key. -/
structure ComplianceSummary where
  total_requirements : Nat
  by_status : List (String × Nat)
  by_category : List (String × Nat)
  critical_items : Nat
  non_compliant_count : Nat
  at_risk_count : Nat
deriving DecidableEq

/-- `LoanProfile.compliance_summary` from `src/models.py`: per-status and
per-category counts over all enum members (insertion order), the count of
CRITICAL-severity requirements, and the two convenience counts read back out
of the status dictionary. -/
def LoanProfile.complianceSummary (p : LoanProfile) : ComplianceSummary :=
  let status_counts := ComplianceStatus.members.map fun st =>
    (st.value, (p.requirements.filter fun r => r.status = st).length)
  let category_counts := RequirementCategory.members.map fun cat =>
    (cat.value, (p.requirements.filter fun r => r.category = cat).length)
  { total_requirements := p.requirements.length
    by_status := status_counts
    by_category := category_counts
    critical_items := (p.requirements.filter fun r => r.severity = Severity.CRITICAL).length
    non_compliant_count := (lookupCount status_counts ComplianceStatus.NON_COMPLIANT.value).getD 0
    at_risk_count := (lookupCount status_counts ComplianceStatus.AT_RISK.value).getD 0 }

/-- One row of the `requirements` table as read by the compliance score in
`src/database.py` (the score reads only the `status` column, a string). -/
structure DbRequirement where
  requirement_id : String
  status : String
deriving DecidableEq

/-- Python `int(x)` on a finite float: truncation toward zero (Lean's `Int`
division truncates toward zero). -/
def pyTrunc (q : Rat) : Int := q.num / q.den

/-- Bit length of a natural number (fuel-driven so it reduces by kernel
evaluation; the first argument is a fuel bound of at least the second). -/
def bitLenAux : Nat → Nat → Nat
  | 0, _ => 0
  | fuel + 1, m => if m = 0 then 0 else bitLenAux fuel (m / 2) + 1

/-- Bit length of `n`; for `n ≥ 1` this is `⌊log2 n⌋ + 1`. -/
def bitLen (n : Nat) : Nat := bitLenAux n n

/-- `2 ^ e` as an exact rational, for an integer exponent. -/
def ratPow2 (e : Int) : Rat :=
  if 0 ≤ e then ((2 ^ e.toNat : Nat) : Rat)
  else (1 : Rat) / ((2 ^ (-e).toNat : Nat) : Rat)

/-- For `q > 0`, the integer `e` with `2 ^ e ≤ q < 2 ^ (e + 1)`. -/
def ilog2Rat (q : Rat) : Int :=
  let la : Int := (bitLen q.num.toNat : Int) - 1
  let lb : Int := (bitLen q.den : Int) - 1
  let e0 := la - lb
  if ratPow2 e0 ≤ q then e0 else e0 - 1

/-- Round a non-negative rational to the nearest integer, ties to even (the
IEEE-754 default rounding applied to an integer-scaled significand). -/
def rneInt (q : Rat) : Int :=
  let m0 := pyTrunc q
  let frac := q - (m0 : Rat)
  if frac < 1/2 then m0
  else if (1/2 : Rat) < frac then m0 + 1
  else if m0 % 2 = 0 then m0 else m0 + 1

/-- Round a positive rational to the nearest IEEE-754 binary64 value
(53-bit significand, subnormals below `2 ^ (-1022)`, ties to even); `none`
when the rounded value reaches `2 ^ 1024` (overflow to infinity). -/
def roundFpPos (q : Rat) : Option Rat :=
  let e := ilog2Rat q
  if e < -1022 then
    some ((rneInt (q * ratPow2 1074) : Rat) * ratPow2 (-1074))
  else
    let m := rneInt (q * ratPow2 (52 - e))
    let r := (m : Rat) * ratPow2 (e - 52)
    if r < ratPow2 1024 then some r else none

/-- Round any rational to the nearest IEEE-754 binary64 value. -/
def roundFp (q : Rat) : Option Rat :=
  if q = 0 then some 0
  else if q < 0 then (roundFpPos (-q)).map fun r => -r
  else roundFpPos q

/-- Python `float(n)` for a non-negative int: rounds to the nearest double;
`none` models the `OverflowError` on ints beyond the double range. -/
def floatOfNat (n : Nat) : Option Rat := roundFp (n : Rat)

/-- Python float addition: exact sum, rounded. -/
def fpAdd (x y : Rat) : Option Rat := roundFp (x + y)

/-- Python float multiplication: exact product, rounded. -/
def fpMul (x y : Rat) : Option Rat := roundFp (x * y)

/-- Python float division (non-zero divisor here): exact quotient, rounded. -/
def fpDiv (x y : Rat) : Option Rat := roundFp (x / y)

/-- `Loan.calculate_compliance_score` from `src/database.py`: 100 for an
empty requirement list, otherwise the Python float evaluation of
`(compliant + at_risk * 0.5) / total * 100` truncated by `int()`.  Every
step rounds to the nearest binary64 value; `none` models the computation
escaping the double range (an `OverflowError` on int-to-float conversion,
or an infinite intermediate making the final `int()` raise). -/
def calculateComplianceScore (requirements : List DbRequirement) : Option Int :=
  if requirements.isEmpty then some 100
  else do
    let total ← floatOfNat requirements.length
    let compliant ← floatOfNat
      (requirements.filter fun r => r.status = ComplianceStatus.COMPLIANT.value).length
    let at_risk ← floatOfNat
      (requirements.filter fun r => r.status = ComplianceStatus.AT_RISK.value).length
    let half ← fpMul at_risk (1/2 : Rat)
    let s1 ← fpAdd compliant half
    let s2 ← fpDiv s1 total
    let score ← fpMul s2 100
    return pyTrunc score

/-- The truncation marker inserted by `RequirementExtractor.extract_requirements`. -/
def truncationMarker : String := "\n\n[...document truncated...]\n\n"

/-- The truncation step of `RequirementExtractor.extract_requirements` in
`src/extractor.py`: `max_chars = 150000`, `half = max_chars // 2`; text longer
than the budget becomes `text[:half] + marker + text[-half:]`. -/
def truncateDocumentText (document_text : String) : String :=
  if document_text.length > 150000 then
    pySliceTo document_text 75000 ++ truncationMarker
      ++ pySliceLast document_text 75000
  else document_text

/-- Index of the first occurrence of `pat` in `cs`, if any. -/
def findSubIdx (pat : List Char) : List Char → Option Nat
  | [] => if pat = [] then some 0 else none
  | c :: rest =>
    if pat.isPrefixOf (c :: rest) then some 0
    else (findSubIdx pat rest).map (· + 1)

/-- Python `\s` on the characters JSON payloads contain. -/
def isPySpace (c : Char) : Bool :=
  c = ' ' ∨ c = '\t' ∨ c = '\n' ∨ c = '\r' ∨ c = '\x0b' ∨ c = '\x0c'

/-- Strip leading and trailing whitespace from a character list. -/
def stripChars (cs : List Char) : List Char :=
  ((cs.dropWhile isPySpace).reverse.dropWhile isPySpace).reverse

/-- The fenced-code-block search of `RequirementExtractor._parse_response`:
Python `re.search` of a lazy group between a fence tagged `json` and the next
closing fence, with surrounding whitespace absorbed, under `re.DOTALL`.  It
matches exactly when a fence tag occurs with a later closing fence, and yields
the enclosed span stripped of surrounding whitespace. -/
def fencedCandidate (response_text : String) : Option String :=
  let cs := response_text.toList
  match findSubIdx "```json".toList cs with
  | none => none
  | some i =>
    let rest := cs.drop (i + 7)
    match findSubIdx "```".toList rest with
    | none => none
    | some j => some (String.mk (stripChars (rest.take j)))

/-- The raw-span search of `RequirementExtractor._parse_response`: the greedy
brace regex under `re.DOTALL` matches from the first opening brace to the last
closing brace, provided the latter comes strictly after the former. -/
def braceCandidate (response_text : String) : Option String :=
  let cs := response_text.toList
  match cs.findIdx? (· = '{'), cs.reverse.findIdx? (· = '}') with
  | some i, some k =>
    let j := cs.length - 1 - k
    if i < j then some (String.mk ((cs.drop i).take (j - i + 1))) else none
  | _, _ => none

/-- The two exception outcomes of `RequirementExtractor._parse_response`:
the `ValueError("Could not find JSON in Claude's response")` branch, and the
`json.JSONDecodeError` escaping from `json.loads`. -/
inductive ParseError where
  | payloadNotFound
  | payloadMalformed
deriving DecidableEq

/-- `RequirementExtractor._parse_response` from `src/extractor.py`.  The
standard-library decoder `json.loads` is passed in as `decode` (returning
`none` where it would raise `json.JSONDecodeError`). -/
def parseResponse (decode : String → Option JsonValue) (response_text : String) :
    Except ParseError JsonValue :=
  match fencedCandidate response_text with
  | some candidate =>
    match decode candidate with
    | some j => .ok j
    | none => .error .payloadMalformed
  | none =>
    match braceCandidate response_text with
    | some candidate =>
      match decode candidate with
      | some j => .ok j
      | none => .error .payloadMalformed
    | none => .error .payloadNotFound

/-- `data.get(key, default)` where the stored value must be a string (the
source immediately calls string methods on it, or stores it in a `str`
dataclass field); `none` models a dynamic type error. -/
def getStrOr (fs : List (String × JsonValue)) (key : String) (dflt : String) :
    Option String :=
  match lookupField fs key with
  | none => some dflt
  | some (.str s) => some s
  | some _ => none

/-- `data.get(key)` for an `Optional[int]` dataclass field: absent and null
give `None`; an integral JSON number gives the integer. -/
def getOptInt (fs : List (String × JsonValue)) (key : String) : Option (Option Int) :=
  match lookupField fs key with
  | none => some none
  | some .null => some none
  | some (.num q) => if q.den = 1 then some (some q.num) else none
  | some _ => none

/-- `data.get(key)` for an `Optional[str]` dataclass field. -/
def getOptStr (fs : List (String × JsonValue)) (key : String) : Option (Option String) :=
  match lookupField fs key with
  | none => some none
  | some .null => some none
  | some (.str s) => some (some s)
  | some _ => none

/-- `data.get(key)` for an `Optional[float]` dataclass field. -/
def getOptRat (fs : List (String × JsonValue)) (key : String) : Option (Option Rat) :=
  match lookupField fs key with
  | none => some none
  | some .null => some none
  | some (.num q) => some (some q)
  | some _ => none

/-- `loan_info.get(key) or default` for a string field: a falsy value (absent,
null, empty string, 0, false, empty container) yields the default. -/
def getStrOrTruthy (fs : List (String × JsonValue)) (key : String) (dflt : String) :
    Option String :=
  match lookupField fs key with
  | none => some dflt
  | some v =>
    if jsonTruthy v then
      match v with
      | .str s => some s
      | _ => none
    else some dflt

/-- `loan_info.get("loan_amount") or 0` for the numeric loan amount. -/
def getNumOrTruthy (fs : List (String × JsonValue)) (key : String) : Option Rat :=
  match lookupField fs key with
  | none => some 0
  | some v =>
    if jsonTruthy v then
      match v with
      | .num q => some q
      | _ => none
    else some 0

/-- The category coercion in `RequirementExtractor._build_requirement`:
`data.get("category", "other").lower().replace(" ", "_")`, then enum lookup
with `RequirementCategory.OTHER` substituted on `ValueError`. -/
def reqCategory (fs : List (String × JsonValue)) : Option RequirementCategory := do
  let raw ← getStrOr fs "category" "other"
  let category_str := spacesToUnderscores (pyLower raw)
  return (RequirementCategory.fromValue category_str).getD .OTHER

/-- The deadline coercion in `RequirementExtractor._build_requirement`:
built only when `data.get("deadline")` is truthy; the frequency string is
normalized and falls back to `Frequency.AS_NEEDED` on `ValueError`. -/
def reqDeadline (fs : List (String × JsonValue)) : Option (Option Deadline) :=
  match lookupField fs "deadline" with
  | none => some none
  | some v =>
    if jsonTruthy v then
      match v with
      | .obj dl => do
        let freq_raw ← getStrOr dl "frequency" "as_needed"
        let freq_str := spacesToUnderscores (pyLower freq_raw)
        let frequency := (Frequency.fromValue freq_str).getD .AS_NEEDED
        let description ← getStrOr dl "description" ""
        let days_after_period_end ← getOptInt dl "days_after_period_end"
        let day_of_month ← getOptInt dl "day_of_month"
        return some { description := description
                      days_after_period_end := days_after_period_end
                      day_of_month := day_of_month
                      frequency := frequency }
      | _ => none
    else some none

/-- The threshold coercion in `RequirementExtractor._build_requirement`:
built only when `data.get("threshold")` is truthy. -/
def reqThreshold (fs : List (String × JsonValue)) : Option (Option Threshold) :=
  match lookupField fs "threshold" with
  | none => some none
  | some v =>
    if jsonTruthy v then
      match v with
      | .obj th => do
        let metric ← getStrOr th "metric" ""
        let operator ← getStrOr th "operator" ">="
        let value ← match lookupField th "value" with
          | none => some (0 : Rat)
          | some (.num q) => some q
          | some _ => none
        let secondary_value ← getOptRat th "secondary_value"
        let unit ← getOptStr th "unit"
        return some { metric := metric, operator := operator, value := value
                      secondary_value := secondary_value, unit := unit }
      | _ => none
    else some none

/-- The severity coercion in `RequirementExtractor._build_requirement`:
`data.get("severity", "medium").lower()`, then enum lookup with
`Severity.MEDIUM` substituted on `ValueError`. -/
def reqSeverity (fs : List (String × JsonValue)) : Option Severity := do
  let raw ← getStrOr fs "severity" "medium"
  return (Severity.fromValue (pyLower raw)).getD .MEDIUM

/-- `RequirementExtractor._build_requirement` from `src/extractor.py`.  A
non-object entry makes Python's `data.get` raise, modelled as `none`. -/
def buildRequirement (data : JsonValue) (index : Nat) : Option LoanRequirement :=
  match data with
  | .obj fs => do
    let category ← reqCategory fs
    let deadline ← reqDeadline fs
    let threshold ← reqThreshold fs
    let severity ← reqSeverity fs
    let title ← getStrOr fs "title" ("Requirement " ++ toString index)
    let description ← getStrOr fs "description" ""
    let plain_language_summary ← getStrOr fs "plain_language_summary" ""
    let original_text ← getStrOr fs "original_text" ""
    let document_reference ← getStrOr fs "document_reference" ""
    let cure_period_days ← getOptInt fs "cure_period_days"
    return { id := "REQ-" ++ padNat3 index
             title := title
             category := category
             description := description
             plain_language_summary := plain_language_summary
             original_text := pySliceTo original_text 500
             document_reference := document_reference
             deadline := deadline
             threshold := threshold
             severity := severity
             cure_period_days := cure_period_days
             status := .UNKNOWN }
  | _ => none

/-- The `enumerate`-driven requirement loop of
`RequirementExtractor._build_loan_profile`, indices assigned from `start`. -/
def buildRequirementList (start : Nat) : List JsonValue → Option (List LoanRequirement)
  | [] => some []
  | d :: rest => do
    let r ← buildRequirement d start
    let rs ← buildRequirementList (start + 1) rest
    return r :: rs

/-- `parsed.get("loan_info", {})` in `RequirementExtractor._build_loan_profile`:
absent gives the empty dict; a present non-dict value makes the subsequent
`loan_info.get` calls raise. -/
def loanInfoFields (fs : List (String × JsonValue)) :
    Option (List (String × JsonValue)) :=
  match lookupField fs "loan_info" with
  | none => some []
  | some (.obj gs) => some gs
  | some _ => none

/-- The `enumerate(parsed.get("requirements", []))` loop of
`RequirementExtractor._build_loan_profile`.  Iterating an empty string or
empty dict yields no entries (an empty profile); iterating a non-empty
string or dict yields string elements, whose `.get` raises; a null, bool or
number is not iterable and raises.  All raises are `none`. -/
def requirementEntries (fs : List (String × JsonValue)) :
    Option (List LoanRequirement) :=
  match lookupField fs "requirements" with
  | none => some []
  | some (.arr entries) => buildRequirementList 1 entries
  | some (.str s) => if s = "" then some [] else none
  | some (.obj gs) => if gs.isEmpty then some [] else none
  | some _ => none

/-- `RequirementExtractor._build_loan_profile` from `src/extractor.py`.
`now` stands for the `datetime.now().isoformat()` dataclass default. -/
def buildLoanProfile (parsed : JsonValue) (loan_id : String) (now : String) :
    Option LoanProfile :=
  match parsed with
  | .obj fs => do
    let loan_info ← loanInfoFields fs
    let property_name ← getStrOrTruthy loan_info "property_name" "Unknown Property"
    let borrower_name ← getStrOrTruthy loan_info "borrower_name" "Unknown Borrower"
    let lender_name ← getStrOrTruthy loan_info "lender_name" "Unknown Lender"
    let original_loan_amount ← getNumOrTruthy loan_info "loan_amount"
    let origination_date ← getOptStr loan_info "origination_date"
    let maturity_date ← getOptStr loan_info "maturity_date"
    let requirements ← requirementEntries fs
    return { loan_id := loan_id
             loan_name := "Loan " ++ loan_id
             property_name := property_name
             borrower_name := borrower_name
             lender_name := lender_name
             original_loan_amount := original_loan_amount
             origination_date := origination_date
             maturity_date := maturity_date
             requirements := requirements
             extraction_date := now }
  | _ => none

/-- The two exception outcomes of `RequirementExtractor.__init__`: the
`RuntimeError` when `httpx` is unavailable and the `ValueError` when no
API credential is available. -/
inductive InitError where
  | httpxMissing
  | missingApiKey
deriving DecidableEq

/-- The configured state a successfully constructed `RequirementExtractor`
holds (`self.api_key`, `self.api_url`, `self.model`). -/
structure ExtractorConfig where
  api_key : String
  api_url : String
  model_name : String
deriving DecidableEq

/-- `RequirementExtractor.__init__` from `src/extractor.py`: requires `httpx`,
then `api_key or os.environ.get("ANTHROPIC_API_KEY")` (Python `or` takes the
environment value when the parameter is absent or falsy), and raises when the
resulting credential is missing or empty. -/
def requirementExtractorInit (httpxAvailable : Bool) (api_key : Option String)
    (env : String → Option String) : Except InitError ExtractorConfig :=
  if !httpxAvailable then .error .httpxMissing
  else
    let key : Option String :=
      match api_key with
      | some s => if s ≠ "" then some s else env "ANTHROPIC_API_KEY"
      | none => env "ANTHROPIC_API_KEY"
    match key with
    | none => .error .missingApiKey
    | some s =>
      if s = "" then .error .missingApiKey
      else .ok { api_key := s
                 api_url := "https://api.anthropic.com/v1/messages"
                 model_name := "claude-sonnet-4-20250514" }

/-- `MockExtractor.extract_requirements` from `src/extractor.py`: a fixed
eight-requirement profile; only the loan id is interpolated and the document
text is never read.  `now` stands for the `extraction_date` wall-clock
default. -/
def mockExtractRequirements (document_text : String) (loan_id : String)
    (now : String) : LoanProfile :=
  { loan_id := loan_id
    loan_name := "Sample Loan " ++ loan_id
    property_name := "123 Main Street Office Building"
    borrower_name := "Sample Borrower LLC"
    lender_name := "Sample Bank, N.A."
    original_loan_amount := 10000000
    origination_date := some "2024-01-15"
    maturity_date := some "2029-01-15"
    extraction_date := now
    requirements :=
      [{ id := "REQ-001"
         title := "Quarterly Financial Statements"
         category := .FINANCIAL_REPORTING
         description := "Borrower must deliver quarterly unaudited financial statements"
         plain_language_summary := "Send your quarterly financial statements to the lender within 45 days after each quarter ends"
         original_text := "Borrower shall deliver to Lender within forty-five (45) days after the end of each fiscal quarter..."
         document_reference := "Section 5.1.1"
         deadline := some { description := "45 days after quarter end"
                            days_after_period_end := some 45
                            frequency := .QUARTERLY }
         severity := .HIGH },
       { id := "REQ-002"
         title := "Annual Audited Financials"
         category := .FINANCIAL_REPORTING
         description := "Borrower must deliver annual audited financial statements"
         plain_language_summary := "Have a CPA audit your financials and send the report within 120 days after year end"
         original_text := "Borrower shall deliver to Lender within one hundred twenty (120) days after the end of each fiscal year, audited financial statements..."
         document_reference := "Section 5.1.2"
         deadline := some { description := "120 days after fiscal year end"
                            days_after_period_end := some 120
                            frequency := .ANNUAL }
         severity := .CRITICAL },
       { id := "REQ-003"
         title := "DSCR Covenant"
         category := .COVENANT_COMPLIANCE
         description := "Maintain minimum Debt Service Coverage Ratio"
         plain_language_summary := "Your property's net operating income divided by your loan payments must be at least 1.25x"
         original_text := "Borrower shall maintain a Debt Service Coverage Ratio of not less than 1.25:1.00..."
         document_reference := "Section 6.2"
         deadline := some { description := "Tested quarterly"
                            frequency := .QUARTERLY }
         threshold := some { metric := "DSCR", operator := ">="
                             value := (125 : Rat) / 100, unit := some "x" }
         severity := .CRITICAL
         cure_period_days := some 30 },
       { id := "REQ-004"
         title := "Property Insurance"
         category := .INSURANCE
         description := "Maintain property insurance with specified coverage"
         plain_language_summary := "Keep your property insured for full replacement cost. Send proof to lender before each renewal."
         original_text := "Borrower shall maintain property insurance in an amount not less than the full replacement cost..."
         document_reference := "Section 4.1"
         deadline := some { description := "30 days before policy expiration"
                            frequency := .ANNUAL }
         severity := .CRITICAL },
       { id := "REQ-005"
         title := "Replacement Reserve Deposits"
         category := .RESERVE_FUNDING
         description := "Monthly deposits to replacement reserve"
         plain_language_summary := "Deposit $2,500 monthly into your replacement reserve account"
         original_text := "Borrower shall deposit with Lender on each Payment Date the sum of $2,500..."
         document_reference := "Section 7.3"
         deadline := some { description := "Monthly with mortgage payment"
                            day_of_month := some 1
                            frequency := .MONTHLY }
         threshold := some { metric := "Monthly Deposit", operator := ">="
                             value := 2500, unit := some "$" }
         severity := .MEDIUM },
       { id := "REQ-006"
         title := "Monthly Rent Roll"
         category := .FINANCIAL_REPORTING
         description := "Submit monthly rent roll"
         plain_language_summary := "Send a current rent roll showing all tenants, lease terms, and rental rates by the 15th of each month"
         original_text := "Borrower shall deliver to Lender by the fifteenth (15th) day of each calendar month a current rent roll..."
         document_reference := "Section 5.1.4"
         deadline := some { description := "By the 15th of each month"
                            day_of_month := some 15
                            frequency := .MONTHLY }
         severity := .MEDIUM },
       { id := "REQ-007"
         title := "Major Lease Approval"
         category := .LEASING
         description := "Lender approval required for major leases"
         plain_language_summary := "Get lender approval before signing any lease over 10,000 SF or with a tenant getting more than 3 months free rent"
         original_text := "Borrower shall not enter into any lease for more than 10,000 square feet or containing concessions in excess of three (3) months free rent without Lender's prior written consent..."
         document_reference := "Section 8.2"
         deadline := some { description := "Prior to lease execution"
                            frequency := .AS_NEEDED }
         severity := .HIGH },
       { id := "REQ-008"
         title := "Annual Operating Budget"
         category := .FINANCIAL_REPORTING
         description := "Submit annual operating budget"
         plain_language_summary := "Submit next year's operating budget for lender approval by November 15th each year"
         original_text := "Not later than November 15 of each year, Borrower shall submit to Lender for approval the proposed annual operating budget..."
         document_reference := "Section 5.1.5"
         deadline := some { description := "November 15 annually"
                            frequency := .ANNUAL }
         severity := .MEDIUM }] }

/-- Modelled from the spec: the repository defines only the mapping-to-
primitives direction (`to_dict`); §8's round-trip property presupposes a
reconstruction, specified in §6 as: enums deserialize from their string
value, null restores an absent optional field, nested entities restore from
nested objects or null.  Decoder for a required string field. -/
def decodeStr : JsonValue → Option String
  | .str s => some s
  | _ => none

/-- Modelled from the spec: decoder for an optional string field. -/
def decodeOptStr : JsonValue → Option (Option String)
  | .null => some none
  | .str s => some (some s)
  | _ => none

/-- Modelled from the spec: decoder for an optional integer field. -/
def decodeOptInt : JsonValue → Option (Option Int)
  | .null => some none
  | .num q => if q.den = 1 then some (some q.num) else none
  | _ => none

/-- Modelled from the spec: decoder for an optional numeric field. -/
def decodeOptRat : JsonValue → Option (Option Rat)
  | .null => some none
  | .num q => some (some q)
  | _ => none

/-- Modelled from the spec: decoder for a required numeric field. -/
def decodeNum : JsonValue → Option Rat
  | .num q => some q
  | _ => none

/-- Modelled from the spec: decoder for a list of strings. -/
def decodeStrList : JsonValue → Option (List String)
  | .arr xs => xs.mapM decodeStr
  | _ => none

/-- Modelled from the spec: reconstruction of a `Deadline` from its
`to_dict` form. -/
def deadlineFromDict (j : JsonValue) : Option Deadline :=
  match j with
  | .obj fs => do
    let description ← (lookupField fs "description").bind decodeStr
    let days_after_period_end ← (lookupField fs "days_after_period_end").bind decodeOptInt
    let specific_date ← (lookupField fs "specific_date").bind decodeOptStr
    let day_of_month ← (lookupField fs "day_of_month").bind decodeOptInt
    let frequency ← (lookupField fs "frequency").bind
      (fun v => (decodeStr v).bind Frequency.fromValue)
    return { description := description
             days_after_period_end := days_after_period_end
             specific_date := specific_date
             day_of_month := day_of_month
             frequency := frequency }
  | _ => none

/-- Modelled from the spec: reconstruction of a `Threshold` from its
`to_dict` form. -/
def thresholdFromDict (j : JsonValue) : Option Threshold :=
  match j with
  | .obj fs => do
    let metric ← (lookupField fs "metric").bind decodeStr
    let operator ← (lookupField fs "operator").bind decodeStr
    let value ← (lookupField fs "value").bind decodeNum
    let secondary_value ← (lookupField fs "secondary_value").bind decodeOptRat
    let unit ← (lookupField fs "unit").bind decodeOptStr
    return { metric := metric, operator := operator, value := value
             secondary_value := secondary_value, unit := unit }
  | _ => none

/-- Modelled from the spec: a nested entity deserializes from a nested
object, null from an absent one. -/
def optNested (decodeOne : JsonValue → Option α) : JsonValue → Option (Option α)
  | .null => some none
  | j => (decodeOne j).map some

/-- Modelled from the spec: reconstruction of a `LoanRequirement` from its
`to_dict` form. -/
def requirementFromDict (j : JsonValue) : Option LoanRequirement :=
  match j with
  | .obj fs => do
    let id ← (lookupField fs "id").bind decodeStr
    let title ← (lookupField fs "title").bind decodeStr
    let category ← (lookupField fs "category").bind
      (fun v => (decodeStr v).bind RequirementCategory.fromValue)
    let description ← (lookupField fs "description").bind decodeStr
    let plain_language_summary ← (lookupField fs "plain_language_summary").bind decodeStr
    let original_text ← (lookupField fs "original_text").bind decodeStr
    let document_reference ← (lookupField fs "document_reference").bind decodeStr
    let deadline ← (lookupField fs "deadline").bind (optNested deadlineFromDict)
    let threshold ← (lookupField fs "threshold").bind (optNested thresholdFromDict)
    let severity ← (lookupField fs "severity").bind
      (fun v => (decodeStr v).bind Severity.fromValue)
    let cure_period_days ← (lookupField fs "cure_period_days").bind decodeOptInt
    let status ← (lookupField fs "status").bind
      (fun v => (decodeStr v).bind ComplianceStatus.fromValue)
    let last_checked ← (lookupField fs "last_checked").bind decodeOptStr
    let notes ← (lookupField fs "notes").bind decodeStr
    return { id := id, title := title, category := category
             description := description
             plain_language_summary := plain_language_summary
             original_text := original_text
             document_reference := document_reference
             deadline := deadline, threshold := threshold
             severity := severity, cure_period_days := cure_period_days
             status := status, last_checked := last_checked, notes := notes }
  | _ => none

/-- Modelled from the spec: reconstruction of a `ComplianceEvent` from its
`to_dict` form. -/
def eventFromDict (j : JsonValue) : Option ComplianceEvent :=
  match j with
  | .obj fs => do
    let requirement_id ← (lookupField fs "requirement_id").bind decodeStr
    let event_date ← (lookupField fs "event_date").bind decodeStr
    let event_type ← (lookupField fs "event_type").bind decodeStr
    let description ← (lookupField fs "description").bind decodeStr
    let submitted_by ← (lookupField fs "submitted_by").bind decodeOptStr
    let documents ← (lookupField fs "documents").bind decodeStrList
    return { requirement_id := requirement_id, event_date := event_date
             event_type := event_type, description := description
             submitted_by := submitted_by, documents := documents }
  | _ => none

/-- Modelled from the spec: reconstruction of a `LoanProfile` from its
`to_dict` form (§6 serialization contract, §8 round-trip property). -/
def profileFromDict (j : JsonValue) : Option LoanProfile :=
  match j with
  | .obj fs => do
    let loan_id ← (lookupField fs "loan_id").bind decodeStr
    let loan_name ← (lookupField fs "loan_name").bind decodeStr
    let property_name ← (lookupField fs "property_name").bind decodeStr
    let borrower_name ← (lookupField fs "borrower_name").bind decodeStr
    let lender_name ← (lookupField fs "lender_name").bind decodeStr
    let original_loan_amount ← (lookupField fs "original_loan_amount").bind decodeNum
    let current_balance ← (lookupField fs "current_balance").bind decodeOptRat
    let origination_date ← (lookupField fs "origination_date").bind decodeOptStr
    let maturity_date ← (lookupField fs "maturity_date").bind decodeOptStr
    let requirements ← (lookupField fs "requirements").bind fun v =>
      match v with
      | .arr xs => xs.mapM requirementFromDict
      | _ => none
    let events ← (lookupField fs "events").bind fun v =>
      match v with
      | .arr xs => xs.mapM eventFromDict
      | _ => none
    let source_documents ← (lookupField fs "source_documents").bind decodeStrList
    let extraction_date ← (lookupField fs "extraction_date").bind decodeStr
    return { loan_id := loan_id, loan_name := loan_name
             property_name := property_name, borrower_name := borrower_name
             lender_name := lender_name
             original_loan_amount := original_loan_amount
             current_balance := current_balance
             origination_date := origination_date
             maturity_date := maturity_date
             requirements := requirements, events := events
             source_documents := source_documents
             extraction_date := extraction_date }
  | _ => none

/-- A bare requirement fixture used as a concrete probe input. -/
def probeRequirement (sev : Severity) : LoanRequirement :=
  { id := "REQ-001"
    title := "T"
    category := .OTHER
    description := ""
    plain_language_summary := ""
    original_text := ""
    document_reference := ""
    severity := sev }

/-- A one-requirement profile fixture used as a concrete probe input. -/
def probeProfile (sev : Severity) : LoanProfile :=
  { loan_id := "L"
    loan_name := "Loan L"
    property_name := "P"
    borrower_name := "B"
    lender_name := "X"
    original_loan_amount := 0
    extraction_date := "d"
    requirements := [probeRequirement sev] }

/-- An empty-requirements profile fixture used as a concrete probe input. -/
def emptyProbeProfile : LoanProfile :=
  { loan_id := "LOAN-001"
    loan_name := "Loan LOAN-001"
    property_name := "Unknown Property"
    borrower_name := "Unknown Borrower"
    lender_name := "Unknown Lender"
    original_loan_amount := 0
    extraction_date := "2024-01-01T00:00:00" }

/-- A requirement entry with unrecognizable category and severity strings,
used as a concrete probe input. -/
def probePayloadEntry : List (String × JsonValue) :=
  [("category", JsonValue.str "Weird Stuff"),
   ("severity", JsonValue.str "bogus"),
   ("title", JsonValue.str "Quarterly Financial Statements")]

/-- A decoded payload with two requirement entries, used as a concrete probe
input. -/
def probeParsedPayload : List (String × JsonValue) :=
  [("requirements",
    JsonValue.arr [JsonValue.obj [("title", JsonValue.str "A")], JsonValue.obj []])]

/-- The profile the builder produces from `probeParsedPayload` (all loan-info
fields defaulted, two requirements in encounter order). -/
def probeBuiltProfile : LoanProfile :=
  { loan_id := "LOAN-001"
    loan_name := "Loan LOAN-001"
    property_name := "Unknown Property"
    borrower_name := "Unknown Borrower"
    lender_name := "Unknown Lender"
    original_loan_amount := 0
    extraction_date := "2024-01-01"
    requirements :=
      [{ id := "REQ-001", title := "A", category := .OTHER, description := "",
         plain_language_summary := "", original_text := "",
         document_reference := "", severity := .MEDIUM, status := .UNKNOWN },
       { id := "REQ-002", title := "Requirement 2", category := .OTHER,
         description := "", plain_language_summary := "", original_text := "",
         document_reference := "", severity := .MEDIUM, status := .UNKNOWN }] }

/-- Fifty requirement rows, 14 compliant and 1 at risk, used as a concrete
probe input. -/
def fiftyRowsProbe : List DbRequirement :=
  List.replicate 14 { requirement_id := "R", status := "compliant" }
    ++ List.replicate 1 { requirement_id := "R", status := "at_risk" }
    ++ List.replicate 35 { requirement_id := "R", status := "unknown" }

theorem categoryFromValue_value (c : RequirementCategory) :
    RequirementCategory.fromValue c.value = some c := by cases c <;> rfl

theorem frequencyFromValue_value (f : Frequency) :
    Frequency.fromValue f.value = some f := by cases f <;> rfl

theorem statusFromValue_value (s : ComplianceStatus) :
    ComplianceStatus.fromValue s.value = some s := by cases s <;> rfl

theorem severityFromValue_value (s : Severity) :
    Severity.fromValue s.value = some s := by cases s <;> rfl

/-- C3: document text of length L > 150,000 characters is submitted as the
first 75,000 characters, the fixed truncation marker, then the last 75,000
characters; text of length ≤ 150,000 is passed through unchanged. -/
theorem truncateDocumentText_spec :
    (∀ s : String, truncateDocumentText s =
      if 150000 < s.length then
        String.mk (s.data.take 75000) ++ truncationMarker
          ++ String.mk (s.data.drop (s.data.length - 75000))
      else s)
    ∧ (∀ s : String, s.length ≤ 150000 → truncateDocumentText s = s) := by
  constructor
  · intro s; rfl
  · intro s h
    simp [truncateDocumentText, Nat.not_lt.mpr h]

theorem truncateDocumentText_spec_witness :
    "loan agreement".length ≤ 150000 ∧
      truncateDocumentText "loan agreement" = "loan agreement" :=
  ⟨by decide, truncateDocumentText_spec.2 "loan agreement" (by decide)⟩

/-- C10: `get_upcoming_deadlines` returns exactly the subsequence of
requirements whose deadline is present, in original order, and the
`within_days` argument has no effect on the result. -/
theorem getUpcomingDeadlines_spec :
    ∀ (p : LoanProfile) (w w' : Int),
      p.getUpcomingDeadlines w = p.requirements.filter (fun r => r.deadline.isSome)
      ∧ p.getUpcomingDeadlines w = p.getUpcomingDeadlines w' := by
  intro p w w'
  exact ⟨rfl, rfl⟩

/-- C8: the deterministic reference extractor yields, for any document text
and loan id, exactly 8 requirements with ids REQ-001..REQ-008 and property
name "123 Main Street Office Building". -/
theorem mockExtractRequirements_spec :
    ∀ (document_text loan_id now : String),
      (mockExtractRequirements document_text loan_id now).requirements.map
          (fun r => r.id) =
        ["REQ-001", "REQ-002", "REQ-003", "REQ-004",
         "REQ-005", "REQ-006", "REQ-007", "REQ-008"]
      ∧ (mockExtractRequirements document_text loan_id now).requirements.length = 8
      ∧ (mockExtractRequirements document_text loan_id now).property_name =
          "123 Main Street Office Building" := by
  intro document_text loan_id now
  exact ⟨rfl, rfl, rfl⟩

/-- C9: with no credential passed and none in the environment, constructing
the extraction client fails with the explicit missing-credential error (no
configured client — in particular no mock substitute — is produced). -/
theorem requirementExtractorInit_missing_key :
    ∀ env : String → Option String, env "ANTHROPIC_API_KEY" = none →
      requirementExtractorInit true none env = .error .missingApiKey := by
  intro env h
  simp [requirementExtractorInit, h]

theorem requirementExtractorInit_missing_key_witness :
    requirementExtractorInit true none (fun _ => none) = .error .missingApiKey :=
  requirementExtractorInit_missing_key (fun _ => none) rfl

/-- C4 (amended): the compliance score of a loan with no requirements is
100; otherwise the score is `(compliant + 0.5 * at_risk) / total * 100`
evaluated step-by-step in IEEE-754 double-precision arithmetic (Python
floats) and truncated toward zero by `int()`; the mixed scenario
[compliant, compliant, at_risk, non_compliant] scores 62. -/
theorem calculateComplianceScore_spec :
    calculateComplianceScore [] = some 100
    ∧ (∀ reqs : List DbRequirement, reqs ≠ [] →
        calculateComplianceScore reqs = (do
          let total ← floatOfNat reqs.length
          let compliant ← floatOfNat
            (reqs.filter fun r => r.status = "compliant").length
          let at_risk ← floatOfNat
            (reqs.filter fun r => r.status = "at_risk").length
          let half ← fpMul at_risk (1/2 : Rat)
          let s1 ← fpAdd compliant half
          let s2 ← fpDiv s1 total
          let score ← fpMul s2 100
          return pyTrunc score))
    ∧ calculateComplianceScore
        [{ requirement_id := "REQ-001", status := "compliant" },
         { requirement_id := "REQ-002", status := "compliant" },
         { requirement_id := "REQ-003", status := "at_risk" },
         { requirement_id := "REQ-004", status := "non_compliant" }] = some 62 := by
  refine ⟨rfl, ?_, by decide⟩
  intro reqs h
  simp [calculateComplianceScore, List.isEmpty_eq_true, h,
    ComplianceStatus.value]

theorem calculateComplianceScore_spec_witness :
    ([({ requirement_id := "REQ-001", status := "unknown" } : DbRequirement)]
        ≠ ([] : List DbRequirement))
    ∧ calculateComplianceScore
        [({ requirement_id := "REQ-001", status := "unknown" } : DbRequirement)]
      = some 0 :=
  ⟨by decide, (calculateComplianceScore_spec.2.1 _ (by decide)).trans (by decide)⟩

/-- C4 counterexample: the exact-rational formula is false of the program —
with 50 requirements of which 14 are compliant and 1 at risk, the exact
value of `(14 + 1 * 0.5) / 50 * 100` is the integer 29, but the code's
float arithmetic computes `int(28.999999999999996) = 28`. -/
theorem calculateComplianceScore_float_gap :
    calculateComplianceScore fiftyRowsProbe = some 28
    ∧ (fiftyRowsProbe.filter fun r => r.status = "compliant").length = 14
    ∧ (fiftyRowsProbe.filter fun r => r.status = "at_risk").length = 1
    ∧ fiftyRowsProbe.length = 50
    ∧ (((14 : Rat) + (1 : Rat) * (1/2)) / (50 : Rat)) * 100 = 29
    ∧ ((28 : Int) ≠ 29) := by
  refine ⟨by decide, by decide, by decide, by decide, by decide, by decide⟩

/-- C5 (amended): `compliance_summary` reports a count for every enum member
of `ComplianceStatus` and of `RequirementCategory` (zero counts included),
the total, and for `Severity` only the count of CRITICAL items; on an
empty-requirements profile every reported count is 0. -/
theorem complianceSummary_spec (p : LoanProfile) :
    p.complianceSummary.total_requirements = p.requirements.length
    ∧ (∀ st : ComplianceStatus,
        lookupCount p.complianceSummary.by_status st.value =
          some (p.requirements.filter fun r => r.status = st).length)
    ∧ (∀ cat : RequirementCategory,
        lookupCount p.complianceSummary.by_category cat.value =
          some (p.requirements.filter fun r => r.category = cat).length)
    ∧ p.complianceSummary.critical_items =
        (p.requirements.filter fun r => r.severity = Severity.CRITICAL).length
    ∧ (p.requirements = [] →
        p.complianceSummary.total_requirements = 0
        ∧ p.complianceSummary.critical_items = 0
        ∧ (∀ st : ComplianceStatus,
            lookupCount p.complianceSummary.by_status st.value = some 0)
        ∧ (∀ cat : RequirementCategory,
            lookupCount p.complianceSummary.by_category cat.value = some 0)) := by
  refine ⟨rfl, ?_, ?_, rfl, ?_⟩
  · intro st; cases st <;> rfl
  · intro cat; cases cat <;> rfl
  · intro h
    refine ⟨?_, ?_, ?_, ?_⟩
    · simp [LoanProfile.complianceSummary, h]
    · simp [LoanProfile.complianceSummary, h]
    · intro st
      cases st <;>
        simp [LoanProfile.complianceSummary, h, lookupCount,
          ComplianceStatus.members, ComplianceStatus.value]
    · intro cat
      cases cat <;>
        simp [LoanProfile.complianceSummary, h, lookupCount,
          RequirementCategory.members, RequirementCategory.value,
          ComplianceStatus.members, ComplianceStatus.value]

theorem complianceSummary_spec_witness :
    (LoanProfile.complianceSummary emptyProbeProfile).total_requirements = 0
    ∧ (LoanProfile.complianceSummary emptyProbeProfile).critical_items = 0 :=
  ⟨((complianceSummary_spec emptyProbeProfile).2.2.2.2 rfl).1,
   ((complianceSummary_spec emptyProbeProfile).2.2.2.2 rfl).2.1⟩

/-- C5 counterexample: `compliance_summary` does NOT report a count for each
`Severity` member — two profiles whose requirements differ in severity (HIGH
versus LOW) produce identical summaries, so no per-severity count can be
read off the summary. -/
theorem complianceSummary_no_severity_breakdown :
    LoanProfile.complianceSummary (probeProfile Severity.HIGH)
      = LoanProfile.complianceSummary (probeProfile Severity.LOW)
    ∧ ((probeProfile Severity.HIGH).requirements.filter
          fun r => r.severity = Severity.HIGH).length
      ≠ ((probeProfile Severity.LOW).requirements.filter
          fun r => r.severity = Severity.HIGH).length := by
  exact ⟨rfl, by decide⟩

/-- C6: a response with neither a fenced json block nor a brace-delimited
span fails with the payload-not-found error; a located candidate that fails
to decode fails with the distinct payload-malformed error. -/
theorem parseResponse_error_taxonomy :
    (∀ (decode : String → Option JsonValue) (text : String),
      fencedCandidate text = none → braceCandidate text = none →
        parseResponse decode text = .error .payloadNotFound)
    ∧ (∀ (decode : String → Option JsonValue) (text c : String),
        (fencedCandidate text = some c
          ∨ (fencedCandidate text = none ∧ braceCandidate text = some c)) →
        decode c = none →
        parseResponse decode text = .error .payloadMalformed)
    ∧ ParseError.payloadMalformed ≠ ParseError.payloadNotFound := by
  refine ⟨?_, ?_, by decide⟩
  · intro decode text h1 h2
    simp [parseResponse, h1, h2]
  · intro decode text c h hdec
    rcases h with h | ⟨h1, h2⟩
    · simp [parseResponse, h, hdec]
    · simp [parseResponse, h1, h2, hdec]

theorem parseResponse_error_taxonomy_witness :
    parseResponse (fun _ => none) "no structured payload here" =
        .error .payloadNotFound
    ∧ parseResponse (fun _ => none) "broken {oops} payload" =
        .error .payloadMalformed :=
  ⟨parseResponse_error_taxonomy.1 (fun _ => none) "no structured payload here"
      rfl rfl,
   parseResponse_error_taxonomy.2.1 (fun _ => none) "broken {oops} payload"
      "{oops}" (Or.inr ⟨rfl, by decide⟩) rfl⟩

theorem lookupField_setField_ne (fs : List (String × JsonValue)) (k : String)
    (v : JsonValue) (key : String) (h : key ≠ k) :
    lookupField (setField fs k v) key = lookupField fs key := by
  induction fs with
  | nil => rfl
  | cons kv rest ih =>
    obtain ⟨k0, v0⟩ := kv
    show lookupField ((if k0 = k then (k0, v) else (k0, v0)) :: setField rest k v) key
        = lookupField ((k0, v0) :: rest) key
    by_cases hk : k0 = k
    · rw [if_pos hk]
      have hne : ¬(k0 = key) := fun hh => h (hh.symm.trans hk)
      show (if k0 = key then some v else lookupField (setField rest k v) key)
          = (if k0 = key then some v0 else lookupField rest key)
      rw [if_neg hne, if_neg hne]
      exact ih
    · rw [if_neg hk]
      show (if k0 = key then some v0 else lookupField (setField rest k v) key)
          = (if k0 = key then some v0 else lookupField rest key)
      by_cases h0 : k0 = key
      · rw [if_pos h0, if_pos h0]
      · rw [if_neg h0, if_neg h0]
        exact ih

theorem lookupField_setField_self (fs : List (String × JsonValue)) (k : String)
    (v w : JsonValue) (h : lookupField fs k = some w) :
    lookupField (setField fs k v) k = some v := by
  induction fs with
  | nil => simp [lookupField] at h
  | cons kv rest ih =>
    obtain ⟨k0, v0⟩ := kv
    show lookupField ((if k0 = k then (k0, v) else (k0, v0)) :: setField rest k v) k
        = some v
    by_cases hk : k0 = k
    · rw [if_pos hk]
      show (if k0 = k then some v else lookupField (setField rest k v) k) = some v
      rw [if_pos hk]
    · rw [if_neg hk]
      show (if k0 = k then some v0 else lookupField (setField rest k v) k) = some v
      rw [if_neg hk]
      have hcons : lookupField ((k0, v0) :: rest) k = lookupField rest k := by
        show (if k0 = k then some v0 else lookupField rest k) = lookupField rest k
        rw [if_neg hk]
      exact ih (hcons.symm.trans h)

theorem getStrOr_setField (fs : List (String × JsonValue)) (k : String)
    (v : JsonValue) (key d : String) (h : key ≠ k) :
    getStrOr (setField fs k v) key d = getStrOr fs key d := by
  simp only [getStrOr, lookupField_setField_ne fs k v key h]

theorem getOptInt_setField (fs : List (String × JsonValue)) (k : String)
    (v : JsonValue) (key : String) (h : key ≠ k) :
    getOptInt (setField fs k v) key = getOptInt fs key := by
  simp only [getOptInt, lookupField_setField_ne fs k v key h]

theorem reqCategory_setField (fs : List (String × JsonValue)) (k : String)
    (v : JsonValue) (h : ("category" : String) ≠ k) :
    reqCategory (setField fs k v) = reqCategory fs := by
  simp only [reqCategory, getStrOr_setField fs k v "category" "other" h]

theorem reqDeadline_setField (fs : List (String × JsonValue)) (k : String)
    (v : JsonValue) (h : ("deadline" : String) ≠ k) :
    reqDeadline (setField fs k v) = reqDeadline fs := by
  simp only [reqDeadline, lookupField_setField_ne fs k v "deadline" h]

theorem reqThreshold_setField (fs : List (String × JsonValue)) (k : String)
    (v : JsonValue) (h : ("threshold" : String) ≠ k) :
    reqThreshold (setField fs k v) = reqThreshold fs := by
  simp only [reqThreshold, lookupField_setField_ne fs k v "threshold" h]

theorem reqSeverity_setField (fs : List (String × JsonValue)) (k : String)
    (v : JsonValue) (h : ("severity" : String) ≠ k) :
    reqSeverity (setField fs k v) = reqSeverity fs := by
  simp only [reqSeverity, getStrOr_setField fs k v "severity" "medium" h]

/-- C1: a requirement entry whose category (respectively severity) field is a
string matching no enum member after normalization is coerced to
`RequirementCategory.OTHER` (respectively `Severity.MEDIUM`) without raising,
and every other field of that entry is coerced exactly as it would be had the
field held a valid enum value ("other" / "medium"). -/
theorem buildRequirement_invalid_enum_defaults
    (fs : List (String × JsonValue)) (i : Nat) :
    (∀ s : String, lookupField fs "category" = some (.str s) →
      RequirementCategory.fromValue (spacesToUnderscores (pyLower s)) = none →
      reqCategory fs = some RequirementCategory.OTHER
      ∧ buildRequirement (.obj fs) i
          = buildRequirement (.obj (setField fs "category" (.str "other"))) i)
    ∧ (∀ s : String, lookupField fs "severity" = some (.str s) →
      Severity.fromValue (pyLower s) = none →
      reqSeverity fs = some Severity.MEDIUM
      ∧ buildRequirement (.obj fs) i
          = buildRequirement (.obj (setField fs "severity" (.str "medium"))) i) := by
  constructor
  · intro s hl hnone
    have hcat : reqCategory fs = some RequirementCategory.OTHER := by
      simp [reqCategory, getStrOr, hl, hnone]
    have hl' := lookupField_setField_self fs "category" (.str "other") _ hl
    have hcat' : reqCategory (setField fs "category" (.str "other"))
        = some RequirementCategory.OTHER := by
      have : getStrOr (setField fs "category" (.str "other")) "category" "other"
          = some "other" := by simp [getStrOr, hl']
      simp [reqCategory, this]
      rfl
    refine ⟨hcat, ?_⟩
    simp only [buildRequirement, hcat, hcat',
      reqDeadline_setField fs "category" (.str "other") (by decide),
      reqThreshold_setField fs "category" (.str "other") (by decide),
      reqSeverity_setField fs "category" (.str "other") (by decide),
      getStrOr_setField fs "category" (.str "other") "title"
        ("Requirement " ++ toString i) (by decide),
      getStrOr_setField fs "category" (.str "other") "description" "" (by decide),
      getStrOr_setField fs "category" (.str "other") "plain_language_summary" ""
        (by decide),
      getStrOr_setField fs "category" (.str "other") "original_text" "" (by decide),
      getStrOr_setField fs "category" (.str "other") "document_reference" ""
        (by decide),
      getOptInt_setField fs "category" (.str "other") "cure_period_days" (by decide)]
  · intro s hl hnone
    have hsev : reqSeverity fs = some Severity.MEDIUM := by
      simp [reqSeverity, getStrOr, hl, hnone]
    have hl' := lookupField_setField_self fs "severity" (.str "medium") _ hl
    have hsev' : reqSeverity (setField fs "severity" (.str "medium"))
        = some Severity.MEDIUM := by
      have : getStrOr (setField fs "severity" (.str "medium")) "severity" "medium"
          = some "medium" := by simp [getStrOr, hl']
      simp [reqSeverity, this]
      rfl
    refine ⟨hsev, ?_⟩
    simp only [buildRequirement, hsev, hsev',
      reqCategory_setField fs "severity" (.str "medium") (by decide),
      reqDeadline_setField fs "severity" (.str "medium") (by decide),
      reqThreshold_setField fs "severity" (.str "medium") (by decide),
      getStrOr_setField fs "severity" (.str "medium") "title"
        ("Requirement " ++ toString i) (by decide),
      getStrOr_setField fs "severity" (.str "medium") "description" "" (by decide),
      getStrOr_setField fs "severity" (.str "medium") "plain_language_summary" ""
        (by decide),
      getStrOr_setField fs "severity" (.str "medium") "original_text" "" (by decide),
      getStrOr_setField fs "severity" (.str "medium") "document_reference" ""
        (by decide),
      getOptInt_setField fs "severity" (.str "medium") "cure_period_days" (by decide)]

theorem buildRequirement_invalid_enum_defaults_witness :
    reqCategory probePayloadEntry = some RequirementCategory.OTHER
    ∧ buildRequirement (.obj probePayloadEntry) 1
        = buildRequirement (.obj (setField probePayloadEntry "category" (.str "other"))) 1
    ∧ reqSeverity probePayloadEntry = some Severity.MEDIUM
    ∧ buildRequirement (.obj probePayloadEntry) 1
        = buildRequirement (.obj (setField probePayloadEntry "severity" (.str "medium"))) 1 :=
  ⟨((buildRequirement_invalid_enum_defaults probePayloadEntry 1).1
      "Weird Stuff" rfl (by decide)).1,
   ((buildRequirement_invalid_enum_defaults probePayloadEntry 1).1
      "Weird Stuff" rfl (by decide)).2,
   ((buildRequirement_invalid_enum_defaults probePayloadEntry 1).2
      "bogus" rfl (by decide)).1,
   ((buildRequirement_invalid_enum_defaults probePayloadEntry 1).2
      "bogus" rfl (by decide)).2⟩

theorem buildRequirement_id (d : JsonValue) (idx : Nat) (r : LoanRequirement)
    (h : buildRequirement d idx = some r) : r.id = "REQ-" ++ padNat3 idx := by
  cases d with
  | obj fs =>
    simp only [buildRequirement, bind, Option.bind_eq_some, pure,
      Option.some.injEq] at h
    obtain ⟨c, -, dl, -, th, -, sv, -, ti, -, de, -, pl, -, ot, -, dr, -, cp, -, hr⟩ := h
    subst hr
    rfl
  | null => simp [buildRequirement] at h
  | bool b => simp [buildRequirement] at h
  | num q => simp [buildRequirement] at h
  | str s => simp [buildRequirement] at h
  | arr xs => simp [buildRequirement] at h

theorem buildRequirementList_spec (entries : List JsonValue) (start : Nat)
    (rs : List LoanRequirement) (h : buildRequirementList start entries = some rs) :
    rs.length = entries.length
    ∧ ∀ i e, entries[i]? = some e →
        ∃ r, buildRequirement e (start + i) = some r ∧ rs[i]? = some r := by
  induction entries generalizing start rs with
  | nil =>
    simp only [buildRequirementList, Option.some.injEq] at h
    subst h
    simp
  | cons e rest ih =>
    simp only [buildRequirementList, bind, Option.bind_eq_some, pure,
      Option.some.injEq] at h
    obtain ⟨r, hr, rs', hrs', heq⟩ := h
    subst heq
    obtain ⟨hlen, hspec⟩ := ih (start + 1) rs' hrs'
    refine ⟨by simp [hlen], ?_⟩
    intro i e' he
    cases i with
    | zero =>
      simp only [List.getElem?_cons_zero, Option.some.injEq] at he
      subst he
      exact ⟨r, by simpa using hr, by simp⟩
    | succ n =>
      simp only [List.getElem?_cons_succ] at he
      obtain ⟨r', hr', hrs⟩ := hspec n e' he
      refine ⟨r', ?_, by simpa using hrs⟩
      have harith : start + 1 + n = start + (n + 1) := by omega
      rw [← harith]
      exact hr'

/-- C2 (amended): for every decoded payload whose requirements list contains
N entries on which the requirement builder succeeds (equivalently, whenever
the profile build does not raise), the built profile contains exactly N
requirements, the i-th one built from the i-th payload entry in encounter
order with 1-based zero-padded id "REQ-00(i+1)". -/
theorem buildLoanProfile_requirement_ids
    (fs : List (String × JsonValue)) (entries : List JsonValue)
    (loan_id now : String) (p : LoanProfile)
    (hreq : lookupField fs "requirements" = some (.arr entries))
    (hp : buildLoanProfile (.obj fs) loan_id now = some p) :
    p.requirements.length = entries.length
    ∧ ∀ i e, entries[i]? = some e →
        ∃ r, buildRequirement e (i + 1) = some r ∧ p.requirements[i]? = some r
          ∧ r.id = "REQ-" ++ padNat3 (i + 1) := by
  simp only [buildLoanProfile, bind, Option.bind_eq_some, pure,
    Option.some.injEq] at hp
  obtain ⟨gs, -, pn, -, bn, -, ln, -, amt, -, od, -, md, -, rs, hrs, heq⟩ := hp
  subst heq
  simp only [requirementEntries, hreq] at hrs
  obtain ⟨hlen, hspec⟩ := buildRequirementList_spec entries 1 rs hrs
  refine ⟨hlen, ?_⟩
  intro i e he
  obtain ⟨r, hr, hri⟩ := hspec i e he
  have harith : 1 + i = i + 1 := Nat.add_comm 1 i
  rw [harith] at hr
  exact ⟨r, hr, hri, buildRequirement_id e (i + 1) r hr⟩

theorem buildLoanProfile_requirement_ids_witness :
    probeBuiltProfile.requirements.length =
      [JsonValue.obj [("title", JsonValue.str "A")], JsonValue.obj []].length :=
  (buildLoanProfile_requirement_ids probeParsedPayload
    [JsonValue.obj [("title", JsonValue.str "A")], JsonValue.obj []]
    "LOAN-001" "2024-01-01" probeBuiltProfile rfl (by decide)).1

/-- C2 counterexample: the claim fails as universally stated — a decoded
payload whose requirements list holds one non-object entry makes the builder
raise (Python `AttributeError` on `data.get`), so no profile with one
requirement is produced. -/
theorem buildLoanProfile_non_object_entry :
    buildLoanProfile (.obj [("requirements", .arr [.num 3])]) "LOAN-001"
        "2024-01-01" = none
    ∧ [JsonValue.num 3].length = 1 := by
  exact ⟨rfl, rfl⟩

theorem decodeOptStr_optStrJson (o : Option String) :
    decodeOptStr (optStrJson o) = some o := by cases o <;> rfl

theorem decodeOptInt_optIntJson (o : Option Int) :
    decodeOptInt (optIntJson o) = some o := by
  cases o with
  | none => rfl
  | some i =>
    simp [optIntJson, decodeOptInt, Rat.den_intCast, Rat.num_intCast]

theorem decodeOptRat_optRatJson (o : Option Rat) :
    decodeOptRat (optRatJson o) = some o := by cases o <;> rfl

theorem decodeStrList_map (xs : List String) :
    decodeStrList (.arr (xs.map .str)) = some xs := by
  simp only [decodeStrList]
  induction xs with
  | nil => rfl
  | cons x rest ih =>
    simp only [List.map_cons, List.mapM_cons, decodeStr, ih, bind, Option.bind,
      pure]

theorem deadlineFromDict_toDict (d : Deadline) :
    deadlineFromDict d.toDict = some d := by
  simp only [Deadline.toDict, deadlineFromDict, lookupField, decodeStr,
    decodeOptStr_optStrJson, decodeOptInt_optIntJson,
    frequencyFromValue_value, Option.bind, bind, pure, String.reduceEq,
    reduceIte]

theorem thresholdFromDict_toDict (t : Threshold) :
    thresholdFromDict t.toDict = some t := by
  simp only [Threshold.toDict, thresholdFromDict, lookupField, decodeStr,
    decodeNum, decodeOptRat_optRatJson, decodeOptStr_optStrJson,
    Option.bind, bind, pure, String.reduceEq, reduceIte]

theorem optNested_of_obj (decodeOne : JsonValue → Option α) (j : JsonValue)
    (a : α) (hobj : ∃ gs, j = .obj gs) (h : decodeOne j = some a) :
    optNested decodeOne j = some (some a) := by
  obtain ⟨gs, rfl⟩ := hobj
  simp [optNested, h]

theorem requirementFromDict_toDict (r : LoanRequirement) :
    requirementFromDict r.toDict = some r := by
  have hdl : optNested deadlineFromDict
      (match r.deadline with | some d => d.toDict | none => .null)
      = some r.deadline := by
    cases r.deadline with
    | none => rfl
    | some d => exact optNested_of_obj _ _ _ ⟨_, rfl⟩ (deadlineFromDict_toDict d)
  have hth : optNested thresholdFromDict
      (match r.threshold with | some t => t.toDict | none => .null)
      = some r.threshold := by
    cases r.threshold with
    | none => rfl
    | some t => exact optNested_of_obj _ _ _ ⟨_, rfl⟩ (thresholdFromDict_toDict t)
  simp only [LoanRequirement.toDict, requirementFromDict, lookupField,
    decodeStr, categoryFromValue_value, severityFromValue_value,
    statusFromValue_value, decodeOptInt_optIntJson,
    decodeOptStr_optStrJson, hdl, hth, Option.bind, bind, pure,
    String.reduceEq, reduceIte]

theorem eventFromDict_toDict (e : ComplianceEvent) :
    eventFromDict e.toDict = some e := by
  simp only [ComplianceEvent.toDict, eventFromDict, lookupField, decodeStr,
    decodeOptStr_optStrJson, decodeStrList_map, Option.bind, bind, pure,
    String.reduceEq, reduceIte]

theorem mapM_requirementFromDict (rs : List LoanRequirement) :
    (rs.map LoanRequirement.toDict).mapM requirementFromDict = some rs := by
  induction rs with
  | nil => rfl
  | cons r rest ih =>
    simp only [List.map_cons, List.mapM_cons, requirementFromDict_toDict, ih,
      Option.bind, bind, pure]

theorem mapM_eventFromDict (es : List ComplianceEvent) :
    (es.map ComplianceEvent.toDict).mapM eventFromDict = some es := by
  induction es with
  | nil => rfl
  | cons e rest ih =>
    simp only [List.map_cons, List.mapM_cons, eventFromDict_toDict, ih,
      Option.bind, bind, pure]

/-- C7: serializing a `LoanProfile` to its primitive mapping form and
reconstructing yields a profile equal to the original in all fields. -/
theorem profileFromDict_toDict (p : LoanProfile) :
    profileFromDict p.toDict = some p := by
  simp only [LoanProfile.toDict, profileFromDict, lookupField, decodeStr,
    decodeNum, decodeOptRat_optRatJson, decodeOptStr_optStrJson,
    decodeStrList_map, mapM_requirementFromDict, mapM_eventFromDict,
    Option.bind, bind, pure, String.reduceEq, reduceIte]
